import Mathlib

/- Verification of the graphics-context core of the DrawBot Glyphs plugin
   (drawBot/context/baseContext.py): a shallow embedding of the color,
   gradient, shadow, text, bezier-path and graphics-state data model and of
   the BaseContext operations, with theorems settling the specified
   properties.  Numeric channel values, sizes and coordinates are embedded
   as rationals; Python `None` becomes `Option`; a raised exception becomes
   an explicit error value returned next to the (possibly partially
   mutated) context. -/

namespace DrawBotSpec

/-- Exceptions raised by the modelled code paths.  Each constructor stands
for one `raise DrawBotError` site in baseContext.py, or for a runtime
exception (AttributeError from a method call on None, NSRangeException from
an invalid range). -/
inductive PyErr where
  /-- DrawBotError: A page must have a width (newPage). -/
  | pageWidthMissing
  /-- DrawBotError: A page must have a height (newPage). -/
  | pageHeightMissing
  /-- DrawBotError: cannot save image when no page is set (saveImage). -/
  | noPageForSaveImage
  /-- DrawBotError: cannot restore graphics state, no matching save() (restore). -/
  | unbalancedRestore
  /-- DrawBotError: Create a new path first (moveTo). -/
  | newPathNeeded
  /-- DrawBotError: lineJoin() argument must be bevel, miter or round. -/
  | invalidLineJoin
  /-- DrawBotError: lineCap() argument must be butt, square or round. -/
  | invalidLineCap
  /-- DrawBotError: Gradient type must be either line or circle. -/
  | gradientTypeInvalid
  /-- DrawBotError: Gradient needs at least 2 colors. -/
  | gradientTooFewColors
  /-- DrawBotError: Gradient needs a correct position for each color. -/
  | gradientPositionsMismatch
  /-- Python AttributeError: calling the named method on a None object. -/
  | attributeErrorNone (attr : String)
  /-- NSRangeException or equivalent: an index or range outside the valid
  extent handed to an AppKit object. -/
  | rangeException
deriving DecidableEq

/-- Discriminates the DrawBotError raises of baseContext.py from generic
runtime exceptions; the spec taxonomy (DrawingStateError, NoPageError,
UnbalancedStateError, InvalidParameterError, InvalidGradientError) names
subsets of the DrawBotError raises. -/
def PyErr.isDrawBotError : PyErr → Bool
  | .attributeErrorNone _ => false
  | .rangeException => false
  | _ => true

/-- A 2D point, as the (x, y) tuples of the source. -/
abbrev Point := ℚ × ℚ

/-- RGB color with alpha: the value content of the calibrated NSColor stored
by Color. -/
structure Color where
  r : ℚ
  g : ℚ
  b : ℚ
  a : ℚ
deriving DecidableEq

/-- Color.__init__ argument handling: one value is gray, two are gray plus
alpha, three or four are RGB(A).  The branch with g omitted but b supplied
cannot occur at any call site in the repository (Python would hand None to
NSColor); it is mapped like the full form with g defaulted to r. -/
def Color.make (r : ℚ) (g b : Option ℚ) (a : ℚ) : Color :=
  match g, b with
  | none, none => ⟨r, r, r, a⟩
  | some g, none => ⟨r, r, r, g⟩
  | some g, some b => ⟨r, g, b, a⟩
  | none, some b => ⟨r, r, b, a⟩

/-- Color.copy duplicates the underlying NSColor; the duplicate is
value-identical. -/
def Color.copy (c : Color) : Color := c

/-- CMYK device color with alpha, as stored by CMYKColor. -/
structure CMYKColor where
  c : ℚ
  m : ℚ
  y : ℚ
  k : ℚ
  a : ℚ
deriving DecidableEq

/-- CMYKColor.copy duplicates the underlying NSColor; the duplicate is
value-identical. -/
def CMYKColor.copy (c : CMYKColor) : CMYKColor := c

/-- Modelled from the spec: the function `cmyk2rgb` is imported from
`drawBot/misc.py`, which is not among the provided sources; the spec fixes
the exact formula r=(1-c)(1-k), g=(1-m)(1-k), b=(1-y)(1-k). -/
def cmyk2rgb (c m y k : ℚ) : ℚ × ℚ × ℚ :=
  ((1 - c) * (1 - k), (1 - m) * (1 - k), (1 - y) * (1 - k))

/-- Shadow value object: offset, blur radius, color, optional parallel CMYK
color. -/
structure Shadow where
  offset : Point
  blur : ℚ
  color : Color
  cmykColor : Option CMYKColor
deriving DecidableEq

/-- Shadow.copy: offset and blur copied, color duplicated, cmykColor set to
None and then duplicated only when truthy (a CMYKColor object is always
truthy). -/
def Shadow.copy (s : Shadow) : Shadow :=
  { offset := s.offset
    blur := s.blur
    color := s.color.copy
    cmykColor :=
      match s.cmykColor with
      | some c => some c.copy
      | none => none }

/-- Gradient descriptor.  The source field `end` is called `stop` here
because `end` is a Lean keyword. -/
structure Gradient where
  gradientType : String
  colors : List Color
  cmykColors : Option (List CMYKColor)
  positions : List ℚ
  start : Option Point
  stop : Option Point
  startRadius : Option ℚ
  endRadius : Option ℚ
deriving DecidableEq

/-- Default gradient positions when the argument is omitted: index divided
by (number of colors - 1), for each color index. -/
def Gradient.defaultPositions (n : Nat) : List ℚ :=
  (List.range n).map fun i => (i : ℚ) / ((n - 1 : Nat) : ℚ)

/-- Gradient.__init__ for a supplied gradientType (the argument-free form,
used only internally by copy(), builds an attribute-less object and is not
modelled as a Gradient value).  The validation order mirrors the source:
gradient type, then color count (a missing or empty color list counts as
fewer than two), then the positions default, then the length match. -/
def Gradient.make (gradientType : String) (start stop : Option Point)
    (colors : Option (List Color)) (positions : Option (List ℚ))
    (startRadius endRadius : Option ℚ) : Except PyErr Gradient :=
  if gradientType ∉ (["linear", "radial"] : List String) then
    .error .gradientTypeInvalid
  else if (colors.getD []).length < 2 then
    .error .gradientTooFewColors
  else
    let colors := colors.getD []
    let positions := positions.getD (Gradient.defaultPositions colors.length)
    if colors.length ≠ positions.length then
      .error .gradientPositionsMismatch
    else
      .ok { gradientType := gradientType
            colors := colors
            cmykColors := none
            positions := positions
            start := start
            stop := stop
            startRadius := startRadius
            endRadius := endRadius }

/-- Gradient.copy: colors duplicated element-wise, cmykColors set to None and
re-duplicated only when truthy (so a present but empty list is turned into
None, faithful to the Python truthiness test), positions copied as a list,
the remaining fields copied by reference. -/
def Gradient.copy (g : Gradient) : Gradient :=
  { gradientType := g.gradientType
    colors := g.colors.map Color.copy
    cmykColors :=
      match g.cmykColors with
      | some l => if l.isEmpty then none else some (l.map CMYKColor.copy)
      | none => none
    positions := g.positions.map fun x => x
    start := g.start
    stop := g.stop
    startRadius := g.startRadius
    endRadius := g.endRadius }

/-- Text style holder (class Text): font name, fallback font name, size,
line height, tracking, hyphenation flag, OpenType feature map. -/
structure Text where
  fontName : String
  fallbackFontName : Option String
  fontSize : ℚ
  lineHeight : Option ℚ
  tracking : Option ℚ
  hyphenation : Option Bool
  openTypeFeatures : List (String × Bool)
deriving DecidableEq

/-- Text.__init__ defaults: the fallback font LucidaGrande at size 10,
everything else unset. -/
def Text.init : Text :=
  { fontName := "LucidaGrande"
    fallbackFontName := none
    fontSize := 10
    lineHeight := none
    tracking := none
    hyphenation := none
    openTypeFeatures := [] }

/-- Text.copy: every field copied, the feature map via dict(). -/
def Text.copy (t : Text) : Text :=
  { fontName := t.fontName
    fallbackFontName := t.fallbackFontName
    fontSize := t.fontSize
    lineHeight := t.lineHeight
    tracking := t.tracking
    hyphenation := t.hyphenation
    openTypeFeatures := t.openTypeFeatures }

/-- NSBezierPath element kinds: MoveTo, LineTo, CurveTo with two control
points and an end point, ClosePath. -/
inductive PathElement where
  | moveTo (pt : Point)
  | lineTo (pt : Point)
  | curveTo (cp1 cp2 pt : Point)
  | closePath
deriving DecidableEq

/-- Whether an element is an NSMoveToBezierPathElement. -/
def PathElement.isMoveTo : PathElement → Bool
  | .moveTo _ => true
  | _ => false

/-- BezierPath wraps the element list of its NSBezierPath. -/
structure BezierPath where
  elements : List PathElement
deriving DecidableEq

/-- A fresh, empty NSBezierPath. -/
def BezierPath.init : BezierPath := ⟨[]⟩

/-- BezierPath.moveTo appends a MoveTo element. -/
def BezierPath.moveTo (p : BezierPath) (pt : Point) : BezierPath :=
  ⟨p.elements ++ [.moveTo pt]⟩

/-- BezierPath.lineTo appends a LineTo element. -/
def BezierPath.lineTo (p : BezierPath) (pt : Point) : BezierPath :=
  ⟨p.elements ++ [.lineTo pt]⟩

/-- BezierPath.curveTo appends a CurveTo element carrying the two control
points and the end point. -/
def BezierPath.curveTo (p : BezierPath) (cp1 cp2 pt : Point) : BezierPath :=
  ⟨p.elements ++ [.curveTo cp1 cp2 pt]⟩

/-- BezierPath.closePath appends a ClosePath element. -/
def BezierPath.closePath (p : BezierPath) : BezierPath :=
  ⟨p.elements ++ [.closePath]⟩

/-- BezierPath.arcTo delegates to the external AppKit call
appendBezierPathWithArcFromPoint:toPoint:radius:, which appends the arc as
line and curve elements.  The exact decomposition is produced by AppKit,
outside this repository, and no claim depends on it; it is modelled as one
curve element through the two tangent points. -/
def BezierPath.arcTo (p : BezierPath) (pt1 pt2 : Point) (radius : ℚ) : BezierPath :=
  ⟨p.elements ++ [.curveTo pt1 pt2 pt2]⟩

/-- One iteration of the rebuilding loop inside optimizePath: each of the
four element kinds is re-appended to the new path unchanged. -/
def optimizeStep (acc : List PathElement) (e : PathElement) : List PathElement :=
  match e with
  | .moveTo pt => acc ++ [.moveTo pt]
  | .lineTo pt => acc ++ [.lineTo pt]
  | .curveTo p1 p2 p3 => acc ++ [.curveTo p1 p2 p3]
  | .closePath => acc ++ [.closePath]

/-- BezierPath.optimizePath: reads the element at index count-1 (on an empty
path the index is -1, which the AppKit bridge rejects with a range
exception); when that trailing element is a MoveTo, the path is replaced by
a rebuild of all elements but the last; otherwise the path is left as is. -/
def BezierPath.optimizePath (p : BezierPath) : Except PyErr BezierPath :=
  match p.elements.getLast? with
  | none => .error .rangeException
  | some e =>
      if e.isMoveTo then
        .ok ⟨p.elements.dropLast.foldl optimizeStep []⟩
      else
        .ok p

/-- BezierPath.copy duplicates the NSBezierPath; the duplicate carries the
same element list. -/
def BezierPath.copy (p : BezierPath) : BezierPath := ⟨p.elements⟩

/-- GraphicsState: the current value of every settable drawing attribute.
Line cap and join store the Quartz constants (naturals) that the
_lineCapStylesMap and _lineJoinStylesMap dictionaries map the names to. -/
structure GraphicsState where
  fillColor : Option Color
  strokeColor : Option Color
  cmykFillColor : Option CMYKColor
  cmykStrokeColor : Option CMYKColor
  shadow : Option Shadow
  gradient : Option Gradient
  strokeWidth : ℚ
  lineDash : Option (List ℚ)
  lineCap : Option Nat
  lineJoin : Option Nat
  miterLimit : ℚ
  text : Text
  path : Option BezierPath
deriving DecidableEq

/-- GraphicsState.__init__: black fill, everything else unset, stroke width
1, miter limit 10, a fresh Text, no path. -/
def GraphicsState.init : GraphicsState :=
  { fillColor := some (Color.make 0 none none 1)
    strokeColor := none
    cmykFillColor := none
    cmykStrokeColor := none
    shadow := none
    gradient := none
    strokeWidth := 1
    lineDash := none
    lineCap := none
    lineJoin := none
    miterLimit := 10
    text := Text.init
    path := none }

/-- GraphicsState.copy: starts from a fresh state and re-assigns each field,
duplicating every mutable sub-object (colors, shadow, gradient, path, text,
dash list) and copying the scalars; the None-or-duplicate conditionals of
the source are Option.map here. -/
def GraphicsState.copy (s : GraphicsState) : GraphicsState :=
  { fillColor := s.fillColor.map Color.copy
    strokeColor := s.strokeColor.map Color.copy
    cmykFillColor := s.cmykFillColor.map CMYKColor.copy
    cmykStrokeColor := s.cmykStrokeColor.map CMYKColor.copy
    shadow := s.shadow.map Shadow.copy
    gradient := s.gradient.map Gradient.copy
    strokeWidth := s.strokeWidth
    lineDash := s.lineDash.map fun d => d.map fun x => x
    lineCap := s.lineCap
    lineJoin := s.lineJoin
    miterLimit := s.miterLimit
    text := s.text.copy
    path := s.path.map BezierPath.copy }

/-- Well-formedness maintained by every constructor of the repository: a
stored gradient never carries a present-but-empty cmykColors list (the
Gradient constructor demands at least two colors and the cmyk gradient
setters store one cmyk color per color), so the Python truthiness test in
Gradient.copy never differs from an is-None test. -/
def GraphicsState.wf (s : GraphicsState) : Bool :=
  match s.gradient with
  | some g =>
      match g.cmykColors with
      | some [] => false
      | _ => true
  | none => true

/-- BaseContext: stored canvas size, page flag, graphics-state stack and
current graphics state.  The backend hooks (_newPage, _save, ...) are
no-ops on BaseContext itself and touch none of these fields. -/
structure BaseContext where
  width : Option ℚ
  height : Option ℚ
  hasPage : Bool
  stack : List GraphicsState
  state : GraphicsState
deriving DecidableEq

/-- A freshly constructed context (BaseContext.__init__ followed by
reset()): no size, no page, empty stack, initial graphics state. -/
def BaseContext.init : BaseContext :=
  { width := none
    height := none
    hasPage := false
    stack := []
    state := GraphicsState.init }

/-- BaseContext.size: each supplied dimension overwrites the stored one. -/
def BaseContext.size (c : BaseContext) (width height : Option ℚ) : BaseContext :=
  let c := match width with
    | some w => { c with width := some w }
    | none => c
  match height with
  | some h => { c with height := some h }
  | none => c

/-- BaseContext.newPage: requires a stored or supplied width and height
(checked in that order, before any mutation), then marks the page flag and
forwards the arguments to the backend hook without storing them. -/
def BaseContext.newPage (c : BaseContext) (width height : Option ℚ) :
    Option PyErr × BaseContext :=
  if c.width = none ∧ width = none then (some .pageWidthMissing, c)
  else if c.height = none ∧ height = none then (some .pageHeightMissing, c)
  else (none, { c with hasPage := true })

/-- BaseContext.saveImage: refuses when no page has been started, otherwise
delegates to the backend hook. -/
def BaseContext.saveImage (c : BaseContext) (path : String) (multipage : Bool) :
    Option PyErr × BaseContext :=
  if c.hasPage = false then (some .noPageForSaveImage, c) else (none, c)

/-- BaseContext.printImage: delegates to the backend hook unconditionally;
there is no page check. -/
def BaseContext.printImage (c : BaseContext) (pdf : Option String) :
    Option PyErr × BaseContext :=
  (none, c)

/-- BaseContext.save: pushes a copy of the current state (the Python list
append is modelled with the stack top at the head) and calls the no-op
backend hook. -/
def BaseContext.save (c : BaseContext) : BaseContext :=
  { c with stack := c.state.copy :: c.stack }

/-- BaseContext.restore: on an empty stack raises before touching anything;
otherwise pops the top snapshot and installs it wholesale as the current
state. -/
def BaseContext.restore (c : BaseContext) : Option PyErr × BaseContext :=
  match c.stack with
  | [] => (some .unbalancedRestore, c)
  | s :: rest => (none, { c with state := s, stack := rest })

/-- BaseContext.newPath: installs a fresh empty path as the current path. -/
def BaseContext.newPath (c : BaseContext) : BaseContext :=
  { c with state := { c.state with path := some BezierPath.init } }

/-- BaseContext.moveTo: the only path operation that tests the current path
against None, raising the create-a-new-path-first DrawBotError. -/
def BaseContext.moveTo (c : BaseContext) (pt : Point) : Option PyErr × BaseContext :=
  match c.state.path with
  | none => (some .newPathNeeded, c)
  | some p => (none, { c with state := { c.state with path := some (p.moveTo pt) } })

/-- BaseContext.lineTo: calls lineTo on the current path without a None
check; on a None path Python raises an AttributeError. -/
def BaseContext.lineTo (c : BaseContext) (pt : Point) : Option PyErr × BaseContext :=
  match c.state.path with
  | none => (some (.attributeErrorNone "lineTo"), c)
  | some p => (none, { c with state := { c.state with path := some (p.lineTo pt) } })

/-- BaseContext.curveTo: no None check, like lineTo. -/
def BaseContext.curveTo (c : BaseContext) (pt1 pt2 pt : Point) :
    Option PyErr × BaseContext :=
  match c.state.path with
  | none => (some (.attributeErrorNone "curveTo"), c)
  | some p => (none, { c with state := { c.state with path := some (p.curveTo pt1 pt2 pt) } })

/-- BaseContext.arcTo: no None check, like lineTo. -/
def BaseContext.arcTo (c : BaseContext) (pt1 pt2 : Point) (radius : ℚ) :
    Option PyErr × BaseContext :=
  match c.state.path with
  | none => (some (.attributeErrorNone "arcTo"), c)
  | some p => (none, { c with state := { c.state with path := some (p.arcTo pt1 pt2 radius) } })

/-- BaseContext.closePath: no None check, like lineTo. -/
def BaseContext.closePath (c : BaseContext) : Option PyErr × BaseContext :=
  match c.state.path with
  | none => (some (.attributeErrorNone "closePath"), c)
  | some p => (none, { c with state := { c.state with path := some p.closePath } })

/-- BaseContext.fill: a None first argument clears both the RGB and the CMYK
fill color; a color sets the RGB fill color and clears the gradient, and
touches neither the CMYK fill color nor anything else. -/
def BaseContext.fill (c : BaseContext) (r : Option ℚ) (g b : Option ℚ) (a : ℚ) :
    BaseContext :=
  match r with
  | none =>
      { c with state := { c.state with fillColor := none, cmykFillColor := none } }
  | some r =>
      { c with state := { c.state with
          fillColor := some (Color.make r g b a)
          gradient := none } }

/-- BaseContext.cmykFill: a None first argument delegates to fill(None);
otherwise it stores the CMYK fill color and then calls fill with the
cmyk2rgb conversion, which also sets the RGB fill color. -/
def BaseContext.cmykFill (c : BaseContext) (cv : Option ℚ) (m y k : ℚ) (a : ℚ) :
    BaseContext :=
  match cv with
  | none => c.fill none none none 1
  | some cv =>
      let c := { c with state := { c.state with cmykFillColor := some ⟨cv, m, y, k, a⟩ } }
      let (r, g, b) := cmyk2rgb cv m y k
      c.fill (some r) (some g) (some b) a

/-- BaseContext.stroke: a None first argument clears both stroke colors; a
color sets the RGB stroke color only. -/
def BaseContext.stroke (c : BaseContext) (r : Option ℚ) (g b : Option ℚ) (a : ℚ) :
    BaseContext :=
  match r with
  | none =>
      { c with state := { c.state with strokeColor := none, cmykStrokeColor := none } }
  | some r =>
      { c with state := { c.state with strokeColor := some (Color.make r g b a) } }

/-- BaseContext.cmykStroke: mirrors cmykFill for the stroke role. -/
def BaseContext.cmykStroke (c : BaseContext) (cv : Option ℚ) (m y k : ℚ) (a : ℚ) :
    BaseContext :=
  match cv with
  | none => c.stroke none none none 1
  | some cv =>
      let c := { c with state := { c.state with cmykStrokeColor := some ⟨cv, m, y, k, a⟩ } }
      let (r, g, b) := cmyk2rgb cv m y k
      c.stroke (some r) (some g) (some b) a

/-- BaseContext.linearGradient: a None start point clears the gradient and
resets the fill to solid black; otherwise the gradient is constructed (a
constructor failure propagates with the state untouched), stored, and
fill(None) then clears both fill colors. -/
def BaseContext.linearGradient (c : BaseContext) (startPoint endPoint : Option Point)
    (colors : Option (List Color)) (locations : Option (List ℚ)) :
    Option PyErr × BaseContext :=
  match startPoint with
  | none =>
      let c := { c with state := { c.state with gradient := none } }
      (none, c.fill (some 0) none none 1)
  | some sp =>
      match Gradient.make "linear" (some sp) endPoint colors locations none none with
      | .error e => (some e, c)
      | .ok g =>
          let c := { c with state := { c.state with gradient := some g } }
          (none, c.fill none none none 1)

/-- BaseContext.radialGradient: like linearGradient with the radial kind and
the start and end radii (defaulting to 0 and 100 in the source). -/
def BaseContext.radialGradient (c : BaseContext) (startPoint endPoint : Option Point)
    (colors : Option (List Color)) (locations : Option (List ℚ))
    (startRadius endRadius : ℚ) : Option PyErr × BaseContext :=
  match startPoint with
  | none =>
      let c := { c with state := { c.state with gradient := none } }
      (none, c.fill (some 0) none none 1)
  | some sp =>
      match Gradient.make "radial" (some sp) endPoint colors locations
          (some startRadius) (some endRadius) with
      | .error e => (some e, c)
      | .ok g =>
          let c := { c with state := { c.state with gradient := some g } }
          (none, c.fill none none none 1)

/-- The _lineJoinStylesMap dictionary: miter, round and bevel mapped to the
Quartz constants kCGLineJoinMiter = 0, kCGLineJoinRound = 1,
kCGLineJoinBevel = 2. -/
def lineJoinStylesMap (join : String) : Option Nat :=
  if join = "miter" then some 0
  else if join = "round" then some 1
  else if join = "bevel" then some 2
  else none

/-- The _lineCapStylesMap dictionary: butt, square and round mapped to the
Quartz constants kCGLineCapButt = 0, kCGLineCapRound = 1,
kCGLineCapSquare = 2. -/
def lineCapStylesMap (cap : String) : Option Nat :=
  if cap = "butt" then some 0
  else if cap = "square" then some 2
  else if cap = "round" then some 1
  else none

/-- BaseContext.lineJoin: a None argument first sets the state field to
None, but control falls through (no return) to the dictionary membership
test, which None fails, so the invalid-argument DrawBotError is raised with
the field already cleared. -/
def BaseContext.lineJoin (c : BaseContext) (join : Option String) :
    Option PyErr × BaseContext :=
  let c := match join with
    | none => { c with state := { c.state with lineJoin := none } }
    | some _ => c
  match join with
  | none => (some .invalidLineJoin, c)
  | some j =>
      match lineJoinStylesMap j with
      | none => (some .invalidLineJoin, c)
      | some v => (none, { c with state := { c.state with lineJoin := some v } })

/-- BaseContext.lineCap: same fall-through shape as lineJoin. -/
def BaseContext.lineCap (c : BaseContext) (cap : Option String) :
    Option PyErr × BaseContext :=
  let c := match cap with
    | none => { c with state := { c.state with lineCap := none } }
    | some _ => c
  match cap with
  | none => (some .invalidLineCap, c)
  | some j =>
      match lineCapStylesMap j with
      | none => (some .invalidLineCap, c)
      | some v => (none, { c with state := { c.state with lineCap := some v } })

/-- FormattedString reduced to what the slicing claim observes: the backing
attributed string as a list of characters, each carrying the attribute
identity resolved for it at append time (so a run boundary is a change of
the second component). -/
structure FormattedString where
  attributedString : List (Char × Nat)
deriving DecidableEq

/-- FormattedString.__len__: the length of the attributed string. -/
def FormattedString.length (fs : FormattedString) : Nat :=
  fs.attributedString.length

/-- NSAttributedString attributedSubstringFromRange: defined only when the
unsigned range lies inside the string; a negative location or length (a
huge unsigned after conversion) or an overrun raises NSRangeException,
modelled as none. -/
def attributedSubstringFromRange (l : List (Char × Nat)) (loc len : Int) :
    Option (List (Char × Nat)) :=
  if 0 ≤ loc ∧ 0 ≤ len ∧ loc + len ≤ l.length then
    some ((l.drop loc.toNat).take len.toNat)
  else none

/-- FormattedString.__getitem__ with a slice: start is defaulted, shifted by
the length when negative, and clamped when above the length; stop is
defaulted and shifted when negative; then the line
`if start + (stop-start) > textLenght: stop = textLenght - stop` rewrites
stop; the substring call is wrapped in try/except pass, so a failing range
leaves the fresh FormattedString empty. -/
def FormattedString.getitemSlice (fs : FormattedString) (start stop : Option Int) :
    FormattedString :=
  let n : Int := fs.length
  let start : Int := match start with
    | none => 0
    | some s => if s < 0 then n + s else if s > n then n else s
  let stop : Int := match stop with
    | none => n
    | some s => if s < 0 then n + s else s
  let stop : Int := if start + (stop - start) > n then n - stop else stop
  match attributedSubstringFromRange fs.attributedString start (stop - start) with
  | some sub => ⟨sub⟩
  | none => ⟨[]⟩

/-- Python clamping semantics for a slice, as the spec describes them
(modelled from the spec for comparison with the source translation above):
both bounds shifted when negative and then clamped into [0, n]. -/
def FormattedString.clampSlice (fs : FormattedString) (start stop : Option Int) :
    FormattedString :=
  let n : Int := fs.length
  let start : Int := match start with
    | none => 0
    | some s => if s < 0 then max (n + s) 0 else min s n
  let stop : Int := match stop with
    | none => n
    | some s => if s < 0 then max (n + s) 0 else min s n
  ⟨(fs.attributedString.drop start.toNat).take (stop - start).toNat⟩

/- Helper lemmas: the copy methods produce value-identical duplicates. -/

/-- Copying a shadow reproduces it exactly. -/
theorem shadow_copy_eq (s : Shadow) : s.copy = s := by
  cases s with
  | mk o b c cc => cases cc <;> rfl

/-- Copying a text style reproduces it exactly. -/
theorem text_copy_eq (t : Text) : t.copy = t := rfl

/-- Copying a bezier path reproduces it exactly. -/
theorem bezierPath_copy_eq (p : BezierPath) : p.copy = p := rfl

/-- Copying a gradient whose cmykColors list is not present-but-empty
reproduces it exactly. -/
theorem gradient_copy_eq (g : Gradient)
    (h : (match g.cmykColors with
          | some ([] : List CMYKColor) => false
          | _ => true) = true) :
    g.copy = g := by
  have hc : Color.copy = id := rfl
  have hk : CMYKColor.copy = id := rfl
  cases g with
  | mk gt cols cc pos st sp sr er =>
    cases cc with
    | none => simp [Gradient.copy, hc, List.map_id, List.map_id']
    | some l =>
      cases l with
      | nil => simp at h
      | cons x t =>
        simp [Gradient.copy, hc, hk, List.map_id, List.map_id']

/-- Copying a well-formed graphics state reproduces it exactly: the deep
copy performed on save() is value-identical to the saved state. -/
theorem graphicsState_copy_eq (s : GraphicsState) (h : s.wf = true) : s.copy = s := by
  have hco : Color.copy = id := rfl
  have hcm : CMYKColor.copy = id := rfl
  have hsh : Shadow.copy = id := funext shadow_copy_eq
  have hpa : BezierPath.copy = id := funext bezierPath_copy_eq
  obtain ⟨fc, sc, cfc, csc, sh, gr, sw, ld, lc, lj, ml, tx, pa⟩ := s
  simp only [GraphicsState.wf] at h
  have hgr : gr.map Gradient.copy = gr := by
    cases gr with
    | none => rfl
    | some g => simp [gradient_copy_eq g h]
  have hld : ld.map (fun d : List ℚ => d.map fun x => x) = ld := by
    cases ld <;> simp
  simp only [GraphicsState.copy, hco, hcm, hsh, hpa, hgr, hld, Option.map_id,
    text_copy_eq, id_eq]

/-- The rebuilding loop of optimizePath appends each element unchanged. -/
theorem foldl_optimizeStep (l acc : List PathElement) :
    l.foldl optimizeStep acc = acc ++ l := by
  induction l generalizing acc with
  | nil => simp
  | cons e t ih => cases e <;> simp [optimizeStep, ih]

/-- The default positions for two colors evaluate to 0 and 1. -/
theorem defaultPositions_two : Gradient.defaultPositions 2 = [0, 1] := by
  norm_num [Gradient.defaultPositions, List.range_succ]

/-- A linear gradient over two colors with omitted positions is accepted
and receives the evenly spaced default positions. -/
theorem Gradient.make_linear_two (sp ep : Option Point) (sr er : Option ℚ)
    (c1 c2 : Color) :
    Gradient.make "linear" sp ep (some [c1, c2]) none sr er =
      .ok { gradientType := "linear", colors := [c1, c2], cmykColors := none,
            positions := [0, 1], start := sp, stop := ep,
            startRadius := sr, endRadius := er } := by
  simp [Gradient.make, defaultPositions_two]

/- Claim theorems. -/

/-- C1: for every well-formed context state, a save() followed by an
arbitrary mutation of the live graphics state and a restore() succeeds and
returns every graphics-state attribute (fill and stroke colors, cmyk
colors, shadow, gradient, stroke width, line dash, line cap, line join,
miter limit, text style, path) to its exact pre-save value, and leaves the
stack as before the save: the pushed snapshot is a deep copy that the
mutation of the live state cannot affect. -/
theorem save_mutate_restore_roundtrip (c : BaseContext)
    (f : GraphicsState → GraphicsState) (h : c.state.wf = true) :
    (BaseContext.restore { c.save with state := f c.save.state }).1 = none ∧
    (BaseContext.restore { c.save with state := f c.save.state }).2.state = c.state ∧
    (BaseContext.restore { c.save with state := f c.save.state }).2.stack = c.stack := by
  simp [BaseContext.save, BaseContext.restore, graphicsState_copy_eq c.state h]

/-- Witness for C1 at a fresh context with a stroke-width mutation between
save and restore. -/
theorem save_mutate_restore_roundtrip_witness :
    BaseContext.init.state.wf = true ∧
    ((BaseContext.restore { BaseContext.init.save with
        state := (fun s => { s with strokeWidth := 5 }) BaseContext.init.save.state }).1
        = none ∧
      (BaseContext.restore { BaseContext.init.save with
        state := (fun s => { s with strokeWidth := 5 }) BaseContext.init.save.state }).2.state
        = BaseContext.init.state ∧
      (BaseContext.restore { BaseContext.init.save with
        state := (fun s => { s with strokeWidth := 5 }) BaseContext.init.save.state }).2.stack
        = BaseContext.init.stack) :=
  ⟨by decide,
    save_mutate_restore_roundtrip BaseContext.init
      (fun s => { s with strokeWidth := 5 }) (by decide)⟩

/-- C2 counterexample: starting from a fresh context, fill(1,0,0) followed
by cmykFill(0,0,0,1) leaves the RGB fill color populated (it is set to the
converted black, not cleared) next to the CMYK fill color: both are
populated at once, contradicting the claimed mutual exclusion. -/
theorem fill_then_cmykFill_keeps_rgb_fill :
    ((BaseContext.init.fill (some 1) (some 0) (some 0) 1).cmykFill
        (some 0) 0 0 1 1).state.fillColor = some ⟨0, 0, 0, 1⟩ ∧
    ((BaseContext.init.fill (some 1) (some 0) (some 0) 1).cmykFill
        (some 0) 0 0 1 1).state.cmykFillColor = some ⟨0, 0, 0, 1, 1⟩ := by
  norm_num [BaseContext.init, GraphicsState.init, BaseContext.fill,
    BaseContext.cmykFill, cmyk2rgb, Color.make]

/-- C2 (amended): fill with a color sets the RGB fill and clears the
gradient but leaves the CMYK fill color unchanged; cmykFill with non-nil
arguments stores the CMYK fill color and also sets the RGB fill color to
the cmyk2rgb conversion, so both are populated at once; fill(None) clears
both fill colors; setting a linear gradient with accepted arguments stores
the gradient and clears both fill colors; setting a fill clears the
gradient. -/
theorem fill_cmykFill_gradient_interaction (c : BaseContext) (r : ℚ)
    (g b : Option ℚ) (a cv m y k a2 : ℚ) (sp : Point) (ep : Option Point)
    (cols : Option (List Color)) (locs : Option (List ℚ)) (grad : Gradient)
    (hg : Gradient.make "linear" (some sp) ep cols locs none none = .ok grad) :
    ((c.fill (some r) g b a).state.fillColor = some (Color.make r g b a) ∧
      (c.fill (some r) g b a).state.gradient = none ∧
      (c.fill (some r) g b a).state.cmykFillColor = c.state.cmykFillColor) ∧
    ((c.cmykFill (some cv) m y k a2).state.cmykFillColor = some ⟨cv, m, y, k, a2⟩ ∧
      (c.cmykFill (some cv) m y k a2).state.fillColor =
        some ⟨(1 - cv) * (1 - k), (1 - m) * (1 - k), (1 - y) * (1 - k), a2⟩ ∧
      (c.cmykFill (some cv) m y k a2).state.gradient = none) ∧
    ((c.fill none none none 1).state.fillColor = none ∧
      (c.fill none none none 1).state.cmykFillColor = none) ∧
    ((c.linearGradient (some sp) ep cols locs).1 = none ∧
      (c.linearGradient (some sp) ep cols locs).2.state.gradient = some grad ∧
      (c.linearGradient (some sp) ep cols locs).2.state.fillColor = none ∧
      (c.linearGradient (some sp) ep cols locs).2.state.cmykFillColor = none) := by
  refine ⟨⟨rfl, rfl, rfl⟩, ⟨rfl, rfl, rfl⟩, ⟨rfl, rfl⟩, ?_⟩
  simp [BaseContext.linearGradient, hg, BaseContext.fill]

/-- Witness for the amended C2 at a fresh context and a concrete
two-color linear gradient. -/
theorem fill_cmykFill_gradient_interaction_witness :
    Gradient.make "linear" (some (0, 0)) (some (1, 1))
        (some [⟨1, 0, 0, 1⟩, ⟨0, 0, 1, 1⟩]) none none none =
      .ok { gradientType := "linear", colors := [⟨1, 0, 0, 1⟩, ⟨0, 0, 1, 1⟩],
            cmykColors := none, positions := [0, 1], start := some (0, 0),
            stop := some (1, 1), startRadius := none, endRadius := none } ∧
    (((BaseContext.init.fill (some 1) (some 0) (some 0) 1).state.fillColor
        = some (Color.make 1 (some 0) (some 0) 1) ∧
      (BaseContext.init.fill (some 1) (some 0) (some 0) 1).state.gradient = none ∧
      (BaseContext.init.fill (some 1) (some 0) (some 0) 1).state.cmykFillColor
        = BaseContext.init.state.cmykFillColor) ∧
    ((BaseContext.init.cmykFill (some 0) 0 0 1 1).state.cmykFillColor
        = some ⟨0, 0, 0, 1, 1⟩ ∧
      (BaseContext.init.cmykFill (some 0) 0 0 1 1).state.fillColor =
        some ⟨(1 - 0) * (1 - 1), (1 - 0) * (1 - 1), (1 - 0) * (1 - 1), 1⟩ ∧
      (BaseContext.init.cmykFill (some 0) 0 0 1 1).state.gradient = none) ∧
    ((BaseContext.init.fill none none none 1).state.fillColor = none ∧
      (BaseContext.init.fill none none none 1).state.cmykFillColor = none) ∧
    ((BaseContext.init.linearGradient (some (0, 0)) (some (1, 1))
        (some [⟨1, 0, 0, 1⟩, ⟨0, 0, 1, 1⟩]) none).1 = none ∧
      (BaseContext.init.linearGradient (some (0, 0)) (some (1, 1))
        (some [⟨1, 0, 0, 1⟩, ⟨0, 0, 1, 1⟩]) none).2.state.gradient =
        some { gradientType := "linear", colors := [⟨1, 0, 0, 1⟩, ⟨0, 0, 1, 1⟩],
               cmykColors := none, positions := [0, 1], start := some (0, 0),
               stop := some (1, 1), startRadius := none, endRadius := none } ∧
      (BaseContext.init.linearGradient (some (0, 0)) (some (1, 1))
        (some [⟨1, 0, 0, 1⟩, ⟨0, 0, 1, 1⟩]) none).2.state.fillColor = none ∧
      (BaseContext.init.linearGradient (some (0, 0)) (some (1, 1))
        (some [⟨1, 0, 0, 1⟩, ⟨0, 0, 1, 1⟩]) none).2.state.cmykFillColor = none)) :=
  ⟨Gradient.make_linear_two (some (0, 0)) (some (1, 1)) none none ⟨1, 0, 0, 1⟩ ⟨0, 0, 1, 1⟩,
    fill_cmykFill_gradient_interaction BaseContext.init 1 (some 0) (some 0)
      1 0 0 0 1 1 (0, 0) (some (1, 1)) (some [⟨1, 0, 0, 1⟩, ⟨0, 0, 1, 1⟩]) none
      { gradientType := "linear", colors := [⟨1, 0, 0, 1⟩, ⟨0, 0, 1, 1⟩],
        cmykColors := none, positions := [0, 1], start := some (0, 0),
        stop := some (1, 1), startRadius := none, endRadius := none }
      (Gradient.make_linear_two (some (0, 0)) (some (1, 1)) none none
        ⟨1, 0, 0, 1⟩ ⟨0, 0, 1, 1⟩)⟩

/-- C3 counterexample: on a fresh context the current path is None and
lineTo does fail, but with an AttributeError from calling a method on None,
not with the DrawingStateError (a DrawBotError raise) the claim states. -/
theorem lineTo_none_path_wrong_error :
    (BaseContext.init.lineTo (0, 0)).1 = some (PyErr.attributeErrorNone "lineTo") ∧
    (PyErr.attributeErrorNone "lineTo").isDrawBotError = false :=
  ⟨rfl, rfl⟩

/-- C3 (amended): with a None current path, moveTo fails with the
create-a-new-path-first DrawBotError (the DrawingStateError of the spec)
and leaves the context unchanged, while lineTo, curveTo, arcTo and
closePath fail with an unchecked AttributeError from dereferencing None,
not with a DrawBotError. -/
theorem path_ops_on_none_path (c : BaseContext) (h : c.state.path = none)
    (pt pt2 pt3 : Point) (radius : ℚ) :
    c.moveTo pt = (some PyErr.newPathNeeded, c) ∧
    c.lineTo pt = (some (PyErr.attributeErrorNone "lineTo"), c) ∧
    c.curveTo pt pt2 pt3 = (some (PyErr.attributeErrorNone "curveTo"), c) ∧
    c.arcTo pt pt2 radius = (some (PyErr.attributeErrorNone "arcTo"), c) ∧
    c.closePath = (some (PyErr.attributeErrorNone "closePath"), c) := by
  unfold BaseContext.moveTo BaseContext.lineTo BaseContext.curveTo
    BaseContext.arcTo BaseContext.closePath
  rw [h]
  exact ⟨rfl, rfl, rfl, rfl, rfl⟩

/-- Witness for the amended C3 at a fresh context. -/
theorem path_ops_on_none_path_witness :
    BaseContext.init.state.path = none ∧
    (BaseContext.init.moveTo (0, 0) = (some PyErr.newPathNeeded, BaseContext.init) ∧
      BaseContext.init.lineTo (0, 0) =
        (some (PyErr.attributeErrorNone "lineTo"), BaseContext.init) ∧
      BaseContext.init.curveTo (0, 0) (1, 1) (2, 2) =
        (some (PyErr.attributeErrorNone "curveTo"), BaseContext.init) ∧
      BaseContext.init.arcTo (0, 0) (1, 1) 1 =
        (some (PyErr.attributeErrorNone "arcTo"), BaseContext.init) ∧
      BaseContext.init.closePath =
        (some (PyErr.attributeErrorNone "closePath"), BaseContext.init)) :=
  ⟨rfl, path_ops_on_none_path BaseContext.init rfl (0, 0) (1, 1) (2, 2) 1⟩

/-- C4 counterexample: on a fresh context no page has been started, yet
printImage succeeds: the source delegates to the backend hook without any
page check, so it does not fail with NoPageError as claimed. -/
theorem printImage_without_page_succeeds :
    BaseContext.init.hasPage = false ∧
    (BaseContext.init.printImage none).1 = none :=
  ⟨rfl, rfl⟩

/-- C4 (amended): with no page started, saveImage fails with the no-page
DrawBotError (the NoPageError of the spec) and leaves the context
unchanged, while printImage performs no page check and always succeeds,
returning the context unchanged. -/
theorem saveImage_printImage_page_gate (c : BaseContext) (h : c.hasPage = false)
    (path : String) (multipage : Bool) (pdf : Option String) :
    c.saveImage path multipage = (some PyErr.noPageForSaveImage, c) ∧
    c.printImage pdf = (none, c) := by
  constructor
  · simp [BaseContext.saveImage, h]
  · rfl

/-- Witness for the amended C4 at a fresh context. -/
theorem saveImage_printImage_page_gate_witness :
    BaseContext.init.hasPage = false ∧
    (BaseContext.init.saveImage "out.pdf" true =
        (some PyErr.noPageForSaveImage, BaseContext.init) ∧
      BaseContext.init.printImage none = (none, BaseContext.init)) :=
  ⟨rfl, saveImage_printImage_page_gate BaseContext.init rfl "out.pdf" true none⟩

/-- C5: restore() on an empty stack fails with the unbalanced-state
DrawBotError and returns the context completely unchanged: the emptiness
check precedes any mutation of the state or the stack. -/
theorem restore_empty_stack_fails (c : BaseContext) (h : c.stack = []) :
    c.restore = (some PyErr.unbalancedRestore, c) := by
  unfold BaseContext.restore
  rw [h]

/-- Witness for C5 at a fresh context, whose stack is empty. -/
theorem restore_empty_stack_fails_witness :
    BaseContext.init.stack = [] ∧
    BaseContext.init.restore = (some PyErr.unbalancedRestore, BaseContext.init) :=
  ⟨rfl, restore_empty_stack_fails BaseContext.init rfl⟩

/-- C6: the Gradient constructor fails for every supplied kind outside
linear and radial, fails for every missing or too-short color list
(whatever the kind), fails for every explicit positions list whose length
differs from the color count, and with positions omitted defaults them to
evenly spaced values, so a linear gradient over two colors succeeds with
positions [0, 1]. -/
theorem gradient_constructor_validation
    (kindA : String) (colsA : Option (List Color)) (posA : Option (List ℚ))
    (kindB : String) (colsB : Option (List Color)) (posB : Option (List ℚ))
    (kindC : String) (colsC : List Color) (posC : List ℚ)
    (sp ep : Option Point) (sr er : Option ℚ) (c1 c2 : Color)
    (hkA : kindA ∉ (["linear", "radial"] : List String))
    (hshort : (colsB.getD []).length < 2)
    (hkC : kindC ∈ (["linear", "radial"] : List String))
    (hlenC : 2 ≤ colsC.length) (hmis : colsC.length ≠ posC.length) :
    Gradient.make kindA sp ep colsA posA sr er = .error PyErr.gradientTypeInvalid ∧
    (∃ e, Gradient.make kindB sp ep colsB posB sr er = .error e) ∧
    Gradient.make kindC sp ep (some colsC) (some posC) sr er =
      .error PyErr.gradientPositionsMismatch ∧
    Gradient.make "linear" sp ep (some [c1, c2]) none sr er =
      .ok { gradientType := "linear", colors := [c1, c2], cmykColors := none,
            positions := [0, 1], start := sp, stop := ep,
            startRadius := sr, endRadius := er } := by
  refine ⟨?_, ?_, ?_, ?_⟩
  · unfold Gradient.make
    rw [if_pos hkA]
  · by_cases hk : kindB ∉ (["linear", "radial"] : List String)
    · exact ⟨PyErr.gradientTypeInvalid, by unfold Gradient.make; rw [if_pos hk]⟩
    · exact ⟨PyErr.gradientTooFewColors, by
        unfold Gradient.make; rw [if_neg hk, if_pos hshort]⟩
  · simp [Gradient.make, hkC, Nat.not_lt.mpr hlenC, hmis]
  · exact Gradient.make_linear_two sp ep sr er c1 c2

/-- Witness for C6 with a bogus kind, a one-color list, a mismatched
positions list, and a successful two-color linear gradient. -/
theorem gradient_constructor_validation_witness :
    (("conic" ∉ (["linear", "radial"] : List String)) ∧
      ((some [(⟨1, 0, 0, 1⟩ : Color)] : Option (List Color)).getD []).length < 2 ∧
      ("linear" ∈ (["linear", "radial"] : List String)) ∧
      2 ≤ ([⟨1, 0, 0, 1⟩, ⟨0, 0, 1, 1⟩] : List Color).length ∧
      ([⟨1, 0, 0, 1⟩, ⟨0, 0, 1, 1⟩] : List Color).length ≠ ([0] : List ℚ).length) ∧
    (Gradient.make "conic" none none (some [⟨1, 0, 0, 1⟩, ⟨0, 0, 1, 1⟩]) none none none =
        .error PyErr.gradientTypeInvalid ∧
      (∃ e, Gradient.make "linear" none none (some [⟨1, 0, 0, 1⟩]) none none none =
        .error e) ∧
      Gradient.make "linear" none none (some [⟨1, 0, 0, 1⟩, ⟨0, 0, 1, 1⟩])
          (some [0]) none none = .error PyErr.gradientPositionsMismatch ∧
      Gradient.make "linear" none none (some [⟨1, 0, 0, 1⟩, ⟨0, 0, 1, 1⟩]) none none none =
        .ok { gradientType := "linear", colors := [⟨1, 0, 0, 1⟩, ⟨0, 0, 1, 1⟩],
              cmykColors := none, positions := [0, 1], start := none, stop := none,
              startRadius := none, endRadius := none }) :=
  ⟨⟨by decide, by decide, by decide, by decide, by decide⟩,
    gradient_constructor_validation "conic" (some [⟨1, 0, 0, 1⟩, ⟨0, 0, 1, 1⟩]) none
      "linear" (some [⟨1, 0, 0, 1⟩]) none
      "linear" [⟨1, 0, 0, 1⟩, ⟨0, 0, 1, 1⟩] [0]
      none none none none ⟨1, 0, 0, 1⟩ ⟨0, 0, 1, 1⟩
      (by decide) (by decide) (by decide) (by decide) (by decide)⟩

/-- C7: evaluation of the slicing code at the failing inputs.  For a
three-character FormattedString, the slice [0:5] (stop beyond the length)
and the slice [-5:] (start below minus the length) both yield an empty
FormattedString: the arithmetic line rewriting stop produces an invalid
range, the substring call fails and the failure is silently swallowed,
instead of the claimed clamping to the valid extent, which would return the
full string in both cases (third and fourth conjuncts, clamping modelled
from the spec); an in-range slice such as [1:3] does return the
corresponding characters. -/
theorem getitemSlice_out_of_range_not_clamped :
    (FormattedString.mk [('a', 0), ('b', 0), ('c', 1)]).getitemSlice
        (some 0) (some 5) = ⟨[]⟩ ∧
    (FormattedString.mk [('a', 0), ('b', 0), ('c', 1)]).getitemSlice
        (some (-5)) none = ⟨[]⟩ ∧
    (FormattedString.mk [('a', 0), ('b', 0), ('c', 1)]).clampSlice
        (some 0) (some 5) = ⟨[('a', 0), ('b', 0), ('c', 1)]⟩ ∧
    (FormattedString.mk [('a', 0), ('b', 0), ('c', 1)]).clampSlice
        (some (-5)) none = ⟨[('a', 0), ('b', 0), ('c', 1)]⟩ ∧
    (FormattedString.mk [('a', 0), ('b', 0), ('c', 1)]).getitemSlice
        (some 1) (some 3) = ⟨[('b', 0), ('c', 1)]⟩ := by
  decide

/-- C8: optimizePath removes a single trailing MoveTo element and keeps
every other element unchanged in order; a nonempty path whose last element
is not a MoveTo is returned unchanged; in particular the instruction list
[MoveTo, LineTo, MoveTo] optimizes to [MoveTo, LineTo]. -/
theorem optimizePath_dangling_moveTo
    (l l2 : List PathElement) (pt a b c3 : Point) (e : PathElement)
    (hl : l.getLast? = some e) (he : e.isMoveTo = false) :
    BezierPath.optimizePath ⟨l2 ++ [.moveTo pt]⟩ = .ok ⟨l2⟩ ∧
    BezierPath.optimizePath ⟨[.moveTo a, .lineTo b, .moveTo c3]⟩ =
      .ok ⟨[.moveTo a, .lineTo b]⟩ ∧
    BezierPath.optimizePath ⟨l⟩ = .ok ⟨l⟩ := by
  have key : ∀ (l3 : List PathElement) (p3 : Point),
      BezierPath.optimizePath ⟨l3 ++ [.moveTo p3]⟩ = .ok ⟨l3⟩ := by
    intro l3 p3
    simp [BezierPath.optimizePath, PathElement.isMoveTo, foldl_optimizeStep,
      List.getLast?_concat, List.dropLast_concat]
  refine ⟨key l2 pt, ?_, ?_⟩
  · simpa using key [.moveTo a, .lineTo b] c3
  · unfold BezierPath.optimizePath
    rw [show (BezierPath.mk l).elements = l from rfl, hl]
    simp [he]

/-- Witness for C8: a path ending in a LineTo is unchanged, and the
dangling-MoveTo cases at concrete points. -/
theorem optimizePath_dangling_moveTo_witness :
    ([PathElement.lineTo (3, 3)].getLast? = some (PathElement.lineTo (3, 3)) ∧
      (PathElement.lineTo (3, 3)).isMoveTo = false) ∧
    (BezierPath.optimizePath ⟨[PathElement.lineTo (1, 1)] ++ [.moveTo (2, 2)]⟩ =
        .ok ⟨[PathElement.lineTo (1, 1)]⟩ ∧
      BezierPath.optimizePath ⟨[.moveTo (0, 0), .lineTo (1, 1), .moveTo (2, 2)]⟩ =
        .ok ⟨[.moveTo (0, 0), .lineTo (1, 1)]⟩ ∧
      BezierPath.optimizePath ⟨[PathElement.lineTo (3, 3)]⟩ =
        .ok ⟨[PathElement.lineTo (3, 3)]⟩) :=
  ⟨⟨rfl, rfl⟩,
    optimizePath_dangling_moveTo [PathElement.lineTo (3, 3)]
      [PathElement.lineTo (1, 1)] (2, 2) (0, 0) (1, 1) (2, 2)
      (PathElement.lineTo (3, 3)) rfl rfl⟩

/-- C9: lineJoin(None) and lineCap(None) always raise the
invalid-parameter DrawBotError: the state field is first assigned None, and
control then falls through to the membership test of the style dictionary,
which None fails; so the call never returns normally and cannot be used to
clear the setting. -/
theorem lineJoin_lineCap_none_always_raise (c : BaseContext) :
    c.lineJoin none =
      (some PyErr.invalidLineJoin,
        { c with state := { c.state with lineJoin := none } }) ∧
    c.lineCap none =
      (some PyErr.invalidLineCap,
        { c with state := { c.state with lineCap := none } }) :=
  ⟨rfl, rfl⟩

/-- C10: newPage never writes its arguments into the stored width and
height (and does not touch the graphics state or the stack); only size()
updates the stored dimensions; concretely, a fresh context accepts
newPage(400, 400) but an immediately following argument-free newPage()
fails for the missing width. -/
theorem newPage_size_dimension_handling :
    (∀ (c : BaseContext) (w h : Option ℚ),
      (c.newPage w h).2.width = c.width ∧ (c.newPage w h).2.height = c.height ∧
      (c.newPage w h).2.state = c.state ∧ (c.newPage w h).2.stack = c.stack) ∧
    (∀ (c : BaseContext) (w h : ℚ),
      (c.size (some w) (some h)).width = some w ∧
      (c.size (some w) (some h)).height = some h) ∧
    ((BaseContext.init.newPage (some 400) (some 400)).1 = none ∧
      (BaseContext.init.newPage (some 400) (some 400)).2.hasPage = true ∧
      ((BaseContext.init.newPage (some 400) (some 400)).2.newPage none none).1 =
        some PyErr.pageWidthMissing) := by
  refine ⟨?_, ?_, ?_⟩
  · intro c w h
    unfold BaseContext.newPage
    split
    · exact ⟨rfl, rfl, rfl, rfl⟩
    · split
      · exact ⟨rfl, rfl, rfl, rfl⟩
      · exact ⟨rfl, rfl, rfl, rfl⟩
  · intro c w h
    exact ⟨rfl, rfl⟩
  · exact ⟨by decide, by decide, by decide⟩

end DrawBotSpec
